import Mathlib

/-!
Shallow embedding of `src/lib/membership-function.ts`: a catalogue of fuzzy
membership functions over (idealised, exact) numbers, with the validation and
error behaviour of the source.

JavaScript numbers are modelled by `JSNum`: either a finite value, carried as
a rational, or one of the non-finite values `nan`, `posInf`, `negInf` that the
finiteness assertions reject.  Arithmetic only ever happens after the
finiteness assertion has passed, so it is carried out on the rational payload
(`JSNum.toQ`; the default `0` for non-finite values is unreachable).  The
three functions whose formulas are transcendental (`gaussian`,
`generalizedBell`, `sigmoid`) produce real numbers; all piecewise-rational
functions stay in `ℚ` so that they evaluate.  A thrown `Error` is modelled by
`Except.error` carrying the message string.
-/

namespace FuzzyVis

/-- A JavaScript number: a finite value (idealised as a rational) or one of
the non-finite values `NaN`, `Infinity`, `-Infinity`. -/
inductive JSNum where
  | fin (q : ℚ)
  | nan
  | posInf
  | negInf
deriving DecidableEq, Repr

/-- The rational payload of a finite `JSNum` (junk value `0` for non-finite
inputs; every use is guarded by a finiteness assertion). -/
def JSNum.toQ : JSNum → ℚ
  | .fin q => q
  | _ => 0

/-- `isFiniteNumber` (source line 11): `Number.isFinite`. -/
def isFiniteNumber : JSNum → Bool
  | .fin _ => true
  | _ => false

/-- `clamp01` (source line 10): clamp a value into `[0, 1]`. -/
def clamp01 (v : ℚ) : ℚ := if v < 0 then 0 else if v > 1 then 1 else v

/-- `clamp01` as used on real-valued results (`gaussian`, `generalizedBell`,
`sigmoid`). -/
noncomputable def clamp01R (v : ℝ) : ℝ := if v < 0 then 0 else if v > 1 then 1 else v

/-- `Number.EPSILON`, the fallback denominator of the zero-width ramps. -/
def EPSILON : ℚ := 1 / 2 ^ 52

/-- `assertFiniteNumbers` (source lines 14–22): throw on the first non-finite
parameter, naming the function and the parameter label. -/
def assertFiniteNumbers (name : String) (values : List (String × JSNum)) :
    Except String Unit :=
  match values with
  | [] => .ok ()
  | (label, v) :: rest =>
    if isFiniteNumber v then assertFiniteNumbers name rest
    else .error (name ++ ": parameter '" ++ label ++ "' must be a finite number.")

/-- `triangular` (source lines 42–58).  A thrown error propagates out, so the
result of the finiteness assertion is matched first. -/
def triangular (x a b c : JSNum) : Except String ℚ :=
  match assertFiniteNumbers "triangular" [("x", x), ("a", a), ("b", b), ("c", c)] with
  | .error e => .error e
  | .ok _ =>
  let x := x.toQ
  let a := a.toQ
  let b := b.toQ
  let c := c.toQ
  if ¬ (a ≤ b ∧ b ≤ c) then .error "triangular: require a <= b <= c" else
  if x ≤ a ∨ x ≥ c then .ok 0 else
  if x = b then .ok 1 else
  if x > a ∧ x < b then .ok (clamp01 ((x - a) / (if b - a = 0 then EPSILON else b - a))) else
  if x > b ∧ x < c then .ok (clamp01 ((c - x) / (if c - b = 0 then EPSILON else c - b))) else
  .ok 0

/-- `trapezoidal` (source lines 74–97). -/
def trapezoidal (x a b c d : JSNum) : Except String ℚ :=
  match assertFiniteNumbers "trapezoidal" [("x", x), ("a", a), ("b", b), ("c", c), ("d", d)] with
  | .error e => .error e
  | .ok _ =>
  let x := x.toQ
  let a := a.toQ
  let b := b.toQ
  let c := c.toQ
  let d := d.toQ
  if ¬ (a ≤ b ∧ b ≤ c ∧ c ≤ d) then .error "trapezoidal: require a <= b <= c <= d" else
  if x ≤ a ∨ x ≥ d then .ok 0 else
  if x ≥ b ∧ x ≤ c then .ok 1 else
  if x > a ∧ x < b then .ok (clamp01 ((x - a) / (if b - a = 0 then EPSILON else b - a))) else
  if x > c ∧ x < d then .ok (clamp01 ((d - x) / (if d - c = 0 then EPSILON else d - c))) else
  .ok 0

/-- `gaussian` (source lines 111–120). -/
noncomputable def gaussian (x mu sigma : JSNum) : Except String ℝ :=
  match assertFiniteNumbers "gaussian" [("x", x), ("mu", mu), ("sigma", sigma)] with
  | .error e => .error e
  | .ok _ =>
  let x := x.toQ
  let mu := mu.toQ
  let sigma := sigma.toQ
  if ¬ (sigma > 0) then .error "gaussian: require sigma > 0" else
  let z : ℚ := (x - mu) / sigma
  .ok (clamp01R (Real.exp (-(1/2 : ℝ) * (z : ℝ) * (z : ℝ))))

/-- `generalizedBell` (source lines 135–151); `Math.pow` is real
exponentiation `Real.rpow`. -/
noncomputable def generalizedBell (x a b c : JSNum) : Except String ℝ :=
  match assertFiniteNumbers "generalizedBell" [("x", x), ("a", a), ("b", b), ("c", c)] with
  | .error e => .error e
  | .ok _ =>
  let x := x.toQ
  let a := a.toQ
  let b := b.toQ
  let c := c.toQ
  if a = 0 then .error "generalizedBell: require a != 0" else
  if ¬ (b > 0) then .error "generalizedBell: require b > 0" else
  let t : ℚ := |(x - c) / a|
  .ok (clamp01R (1 / (1 + (t : ℝ) ^ ((2 : ℝ) * (b : ℝ)))))

/-- `sigmoid` (source lines 163–171). -/
noncomputable def sigmoid (x a c : JSNum) : Except String ℝ :=
  match assertFiniteNumbers "sigmoid" [("x", x), ("a", a), ("c", c)] with
  | .error e => .error e
  | .ok _ =>
  let x := x.toQ
  let a := a.toQ
  let c := c.toQ
  .ok (clamp01R (1 / (1 + Real.exp (-(a : ℝ) * ((x : ℝ) - (c : ℝ))))))

/-- `sCurve` (source lines 184–197). -/
def sCurve (x a b : JSNum) : Except String ℚ :=
  match assertFiniteNumbers "sCurve" [("x", x), ("a", a), ("b", b)] with
  | .error e => .error e
  | .ok _ =>
  let x := x.toQ
  let a := a.toQ
  let b := b.toQ
  if ¬ (a < b) then .error "sCurve: require a < b" else
  if x ≤ a then .ok 0 else
  if x ≥ b then .ok 1 else
  let t := (x - a) / (b - a)
  if t ≤ 1/2 then .ok (2 * t * t) else
  let u := 1 - t
  .ok (1 - 2 * u * u)

/-- `zCurve` (source lines 210–223). -/
def zCurve (x a b : JSNum) : Except String ℚ :=
  match assertFiniteNumbers "zCurve" [("x", x), ("a", a), ("b", b)] with
  | .error e => .error e
  | .ok _ =>
  let x := x.toQ
  let a := a.toQ
  let b := b.toQ
  if ¬ (a < b) then .error "zCurve: require a < b" else
  if x ≤ a then .ok 1 else
  if x ≥ b then .ok 0 else
  let t := (x - a) / (b - a)
  if t ≤ 1/2 then .ok (1 - 2 * t * t) else
  let u := 1 - t
  .ok (2 * u * u)

/-- `piCurve` (source lines 238–260): delegates its ramps to `sCurve` and
`zCurve`, passing the original arguments. -/
def piCurve (x a b c d : JSNum) : Except String ℚ :=
  match assertFiniteNumbers "piCurve" [("x", x), ("a", a), ("b", b), ("c", c), ("d", d)] with
  | .error e => .error e
  | .ok _ =>
  let xq := x.toQ
  let aq := a.toQ
  let bq := b.toQ
  let cq := c.toQ
  let dq := d.toQ
  if ¬ (aq ≤ bq ∧ bq ≤ cq ∧ cq ≤ dq) then .error "piCurve: require a <= b <= c <= d" else
  if xq ≤ aq ∨ xq ≥ dq then .ok 0 else
  if xq ≥ bq ∧ xq ≤ cq then .ok 1 else
  if xq > aq ∧ xq < bq then sCurve x a b else
  if xq > cq ∧ xq < dq then zCurve x c d else
  .ok 0

/-- `leftShoulder` (source lines 273–275): an alias of `zCurve`. -/
def leftShoulder (x a b : JSNum) : Except String ℚ := zCurve x a b

/-- `rightShoulder` (source lines 288–290): an alias of `sCurve`. -/
def rightShoulder (x a b : JSNum) : Except String ℚ := sCurve x a b

/-- `singleton` (source lines 302–308): strict equality, no tolerance. -/
def singleton (x c : JSNum) : Except String ℚ :=
  match assertFiniteNumbers "singleton" [("x", x), ("c", c)] with
  | .error e => .error e
  | .ok _ => .ok (if x.toQ = c.toQ then 1 else 0)

/-- `complement` (source lines 316–320). -/
def complement (mu : JSNum) : Except String ℚ :=
  if !(isFiniteNumber mu) then .error "complement: mu must be a finite number"
  else .ok (clamp01 (1 - mu.toQ))

/-! ### Unfolding lemmas

On finite arguments the finiteness assertion passes definitionally, so each
function reduces to its chain of guards; these lemmas expose that chain. -/

theorem triangular_fin (x a b c : ℚ) :
    triangular (.fin x) (.fin a) (.fin b) (.fin c) =
      if ¬ (a ≤ b ∧ b ≤ c) then .error "triangular: require a <= b <= c" else
      if x ≤ a ∨ x ≥ c then .ok 0 else
      if x = b then .ok 1 else
      if x > a ∧ x < b then .ok (clamp01 ((x - a) / (if b - a = 0 then EPSILON else b - a))) else
      if x > b ∧ x < c then .ok (clamp01 ((c - x) / (if c - b = 0 then EPSILON else c - b))) else
      .ok 0 := rfl

theorem trapezoidal_fin (x a b c d : ℚ) :
    trapezoidal (.fin x) (.fin a) (.fin b) (.fin c) (.fin d) =
      if ¬ (a ≤ b ∧ b ≤ c ∧ c ≤ d) then .error "trapezoidal: require a <= b <= c <= d" else
      if x ≤ a ∨ x ≥ d then .ok 0 else
      if x ≥ b ∧ x ≤ c then .ok 1 else
      if x > a ∧ x < b then .ok (clamp01 ((x - a) / (if b - a = 0 then EPSILON else b - a))) else
      if x > c ∧ x < d then .ok (clamp01 ((d - x) / (if d - c = 0 then EPSILON else d - c))) else
      .ok 0 := rfl

theorem gaussian_fin (x mu sigma : ℚ) :
    gaussian (.fin x) (.fin mu) (.fin sigma) =
      if ¬ (sigma > 0) then .error "gaussian: require sigma > 0" else
      .ok (clamp01R (Real.exp (-(1/2 : ℝ) * (((x - mu) / sigma : ℚ) : ℝ) *
        (((x - mu) / sigma : ℚ) : ℝ)))) := rfl

theorem generalizedBell_fin (x a b c : ℚ) :
    generalizedBell (.fin x) (.fin a) (.fin b) (.fin c) =
      if a = 0 then .error "generalizedBell: require a != 0" else
      if ¬ (b > 0) then .error "generalizedBell: require b > 0" else
      .ok (clamp01R (1 / (1 + ((|(x - c) / a| : ℚ) : ℝ) ^ ((2 : ℝ) * (b : ℝ))))) := rfl

theorem sigmoid_fin (x a c : ℚ) :
    sigmoid (.fin x) (.fin a) (.fin c) =
      .ok (clamp01R (1 / (1 + Real.exp (-(a : ℝ) * ((x : ℝ) - (c : ℝ)))))) := rfl

theorem sCurve_fin (x a b : ℚ) :
    sCurve (.fin x) (.fin a) (.fin b) =
      if ¬ (a < b) then .error "sCurve: require a < b" else
      if x ≤ a then .ok 0 else
      if x ≥ b then .ok 1 else
      if (x - a) / (b - a) ≤ 1/2 then .ok (2 * ((x - a) / (b - a)) * ((x - a) / (b - a))) else
      .ok (1 - 2 * (1 - (x - a) / (b - a)) * (1 - (x - a) / (b - a))) := rfl

theorem zCurve_fin (x a b : ℚ) :
    zCurve (.fin x) (.fin a) (.fin b) =
      if ¬ (a < b) then .error "zCurve: require a < b" else
      if x ≤ a then .ok 1 else
      if x ≥ b then .ok 0 else
      if (x - a) / (b - a) ≤ 1/2 then .ok (1 - 2 * ((x - a) / (b - a)) * ((x - a) / (b - a))) else
      .ok (2 * (1 - (x - a) / (b - a)) * (1 - (x - a) / (b - a))) := rfl

theorem piCurve_fin (x a b c d : ℚ) :
    piCurve (.fin x) (.fin a) (.fin b) (.fin c) (.fin d) =
      if ¬ (a ≤ b ∧ b ≤ c ∧ c ≤ d) then .error "piCurve: require a <= b <= c <= d" else
      if x ≤ a ∨ x ≥ d then .ok 0 else
      if x ≥ b ∧ x ≤ c then .ok 1 else
      if x > a ∧ x < b then sCurve (.fin x) (.fin a) (.fin b) else
      if x > c ∧ x < d then zCurve (.fin x) (.fin c) (.fin d) else
      .ok 0 := rfl

theorem singleton_fin (x c : ℚ) :
    singleton (.fin x) (.fin c) = .ok (if x = c then 1 else 0) := rfl

theorem complement_fin (mu : ℚ) :
    complement (.fin mu) = .ok (clamp01 (1 - mu)) := rfl

/-! ### Range lemmas: every produced value lies in `[0, 1]` -/

theorem clamp01_nonneg (v : ℚ) : 0 ≤ clamp01 v := by
  unfold clamp01
  split_ifs <;> linarith

theorem clamp01_le_one (v : ℚ) : clamp01 v ≤ 1 := by
  unfold clamp01
  split_ifs <;> linarith

theorem clamp01R_nonneg (v : ℝ) : 0 ≤ clamp01R v := by
  unfold clamp01R
  split_ifs <;> linarith

theorem clamp01R_le_one (v : ℝ) : clamp01R v ≤ 1 := by
  unfold clamp01R
  split_ifs <;> linarith

theorem triangular_mem (x a b c : ℚ) (hab : a ≤ b) (hbc : b ≤ c) :
    ∃ v, triangular (.fin x) (.fin a) (.fin b) (.fin c) = .ok v ∧ 0 ≤ v ∧ v ≤ 1 := by
  rw [triangular_fin, if_neg (not_not_intro ⟨hab, hbc⟩)]
  split_ifs
  all_goals first
    | exact ⟨0, rfl, le_refl _, by norm_num⟩
    | exact ⟨1, rfl, by norm_num, le_refl _⟩
    | exact ⟨_, rfl, clamp01_nonneg _, clamp01_le_one _⟩

theorem trapezoidal_mem (x a b c d : ℚ) (hab : a ≤ b) (hbc : b ≤ c) (hcd : c ≤ d) :
    ∃ v, trapezoidal (.fin x) (.fin a) (.fin b) (.fin c) (.fin d) = .ok v ∧ 0 ≤ v ∧ v ≤ 1 := by
  rw [trapezoidal_fin, if_neg (not_not_intro ⟨hab, hbc, hcd⟩)]
  split_ifs
  all_goals first
    | exact ⟨0, rfl, le_refl _, by norm_num⟩
    | exact ⟨1, rfl, by norm_num, le_refl _⟩
    | exact ⟨_, rfl, clamp01_nonneg _, clamp01_le_one _⟩

theorem sCurve_mem (x a b : ℚ) (hab : a < b) :
    ∃ v, sCurve (.fin x) (.fin a) (.fin b) = .ok v ∧ 0 ≤ v ∧ v ≤ 1 := by
  rw [sCurve_fin, if_neg (not_not_intro hab)]
  split_ifs with h1 h2 h3
  · exact ⟨0, rfl, le_refl _, by norm_num⟩
  · exact ⟨1, rfl, by norm_num, le_refl _⟩
  · refine ⟨_, rfl, ?_, ?_⟩
    · have ht : 0 < (x - a) / (b - a) := div_pos (by linarith) (by linarith)
      positivity
    · have ht : 0 < (x - a) / (b - a) := div_pos (by linarith) (by linarith)
      nlinarith [ht, h3]
  · refine ⟨_, rfl, ?_, ?_⟩
    · have ht : (x - a) / (b - a) < 1 := (div_lt_one (by linarith)).mpr (by linarith)
      push_neg at h3
      nlinarith [ht, h3]
    · nlinarith [sq_nonneg (1 - (x - a) / (b - a))]

theorem zCurve_mem (x a b : ℚ) (hab : a < b) :
    ∃ v, zCurve (.fin x) (.fin a) (.fin b) = .ok v ∧ 0 ≤ v ∧ v ≤ 1 := by
  rw [zCurve_fin, if_neg (not_not_intro hab)]
  split_ifs with h1 h2 h3
  · exact ⟨1, rfl, by norm_num, le_refl _⟩
  · exact ⟨0, rfl, le_refl _, by norm_num⟩
  · refine ⟨_, rfl, ?_, ?_⟩
    · have ht : 0 < (x - a) / (b - a) := div_pos (by linarith) (by linarith)
      nlinarith [ht, h3]
    · nlinarith [sq_nonneg ((x - a) / (b - a))]
  · refine ⟨_, rfl, ?_, ?_⟩
    · have ht : (x - a) / (b - a) < 1 := (div_lt_one (by linarith)).mpr (by linarith)
      nlinarith [ht]
    · have ht : (x - a) / (b - a) < 1 := (div_lt_one (by linarith)).mpr (by linarith)
      push_neg at h3
      nlinarith [ht, h3]

theorem piCurve_mem (x a b c d : ℚ) (hab : a ≤ b) (hbc : b ≤ c) (hcd : c ≤ d) :
    ∃ v, piCurve (.fin x) (.fin a) (.fin b) (.fin c) (.fin d) = .ok v ∧ 0 ≤ v ∧ v ≤ 1 := by
  rw [piCurve_fin, if_neg (not_not_intro ⟨hab, hbc, hcd⟩)]
  split_ifs with h1 h2 h3 h4
  · exact ⟨0, rfl, le_refl _, by norm_num⟩
  · exact ⟨1, rfl, by norm_num, le_refl _⟩
  · exact sCurve_mem x a b (lt_trans h3.1 h3.2)
  · exact zCurve_mem x c d (lt_trans h4.1 h4.2)
  · exact ⟨0, rfl, le_refl _, by norm_num⟩

theorem gaussian_mem (x mu sigma : ℚ) (hs : 0 < sigma) :
    ∃ v : ℝ, gaussian (.fin x) (.fin mu) (.fin sigma) = .ok v ∧ 0 ≤ v ∧ v ≤ 1 := by
  rw [gaussian_fin, if_neg (not_not_intro hs)]
  exact ⟨_, rfl, clamp01R_nonneg _, clamp01R_le_one _⟩

theorem generalizedBell_mem (x a b c : ℚ) (ha : a ≠ 0) (hb : 0 < b) :
    ∃ v : ℝ, generalizedBell (.fin x) (.fin a) (.fin b) (.fin c) = .ok v ∧ 0 ≤ v ∧ v ≤ 1 := by
  rw [generalizedBell_fin, if_neg ha, if_neg (not_not_intro hb)]
  exact ⟨_, rfl, clamp01R_nonneg _, clamp01R_le_one _⟩

theorem sigmoid_mem (x a c : ℚ) :
    ∃ v : ℝ, sigmoid (.fin x) (.fin a) (.fin c) = .ok v ∧ 0 ≤ v ∧ v ≤ 1 := by
  rw [sigmoid_fin]
  exact ⟨_, rfl, clamp01R_nonneg _, clamp01R_le_one _⟩

theorem singleton_mem (x c : ℚ) :
    ∃ v, singleton (.fin x) (.fin c) = .ok v ∧ 0 ≤ v ∧ v ≤ 1 := by
  rw [singleton_fin]
  split_ifs
  · exact ⟨1, rfl, by norm_num, le_refl _⟩
  · exact ⟨0, rfl, le_refl _, by norm_num⟩

/-! ### Error-path lemmas -/

theorem assertFiniteNumbers_ok_iff (name : String) (vs : List (String × JSNum)) :
    assertFiniteNumbers name vs = .ok () ↔ ∀ p ∈ vs, isFiniteNumber p.2 = true := by
  induction vs with
  | nil => simp [assertFiniteNumbers]
  | cons p rest ih =>
    obtain ⟨label, v⟩ := p
    by_cases hv : isFiniteNumber v = true
    · simp [assertFiniteNumbers, hv, ih]
    · simp [assertFiniteNumbers, hv]

/-- Every message produced by the finiteness assertion starts with the supplied
function name. -/
theorem assertFiniteNumbers_error_shape (name : String) (vs : List (String × JSNum)) :
    ∀ e, assertFiniteNumbers name vs = .error e → ∃ s, e = name ++ s := by
  induction vs with
  | nil => intro e h; simp [assertFiniteNumbers] at h
  | cons p rest ih =>
    obtain ⟨label, v⟩ := p
    intro e h
    by_cases hv : isFiniteNumber v = true
    · rw [assertFiniteNumbers, if_pos hv] at h
      exact ih e h
    · rw [assertFiniteNumbers, if_neg hv] at h
      injection h with h
      exact ⟨": parameter '" ++ label ++ "' must be a finite number.", by
        rw [← h]; simp [String.append_assoc]⟩

theorem assert_error_total (name : String) (vs : List (String × JSNum))
    (h : ¬ ∀ p ∈ vs, isFiniteNumber p.2 = true) :
    ∃ e, assertFiniteNumbers name vs = .error e := by
  cases hA : assertFiniteNumbers name vs with
  | error e => exact ⟨e, rfl⟩
  | ok u => cases u; exact absurd ((assertFiniteNumbers_ok_iff _ _).mp hA) h

theorem triangular_error_of_nonfinite (x a b c : JSNum)
    (h : ¬(isFiniteNumber x = true ∧ isFiniteNumber a = true ∧ isFiniteNumber b = true ∧
      isFiniteNumber c = true)) :
    ∃ e, triangular x a b c = .error e := by
  obtain ⟨e, hA⟩ := assert_error_total "triangular" [("x", x), ("a", a), ("b", b), ("c", c)]
    (fun hall => h ⟨hall ("x", x) (by simp), hall ("a", a) (by simp), hall ("b", b) (by simp),
      hall ("c", c) (by simp)⟩)
  exact ⟨e, by unfold triangular; rw [hA]⟩

theorem trapezoidal_error_of_nonfinite (x a b c d : JSNum)
    (h : ¬(isFiniteNumber x = true ∧ isFiniteNumber a = true ∧ isFiniteNumber b = true ∧
      isFiniteNumber c = true ∧ isFiniteNumber d = true)) :
    ∃ e, trapezoidal x a b c d = .error e := by
  obtain ⟨e, hA⟩ := assert_error_total "trapezoidal"
    [("x", x), ("a", a), ("b", b), ("c", c), ("d", d)]
    (fun hall => h ⟨hall ("x", x) (by simp), hall ("a", a) (by simp), hall ("b", b) (by simp),
      hall ("c", c) (by simp), hall ("d", d) (by simp)⟩)
  exact ⟨e, by unfold trapezoidal; rw [hA]⟩

theorem gaussian_error_of_nonfinite (x mu sigma : JSNum)
    (h : ¬(isFiniteNumber x = true ∧ isFiniteNumber mu = true ∧ isFiniteNumber sigma = true)) :
    ∃ e, gaussian x mu sigma = .error e := by
  obtain ⟨e, hA⟩ := assert_error_total "gaussian" [("x", x), ("mu", mu), ("sigma", sigma)]
    (fun hall => h ⟨hall ("x", x) (by simp), hall ("mu", mu) (by simp),
      hall ("sigma", sigma) (by simp)⟩)
  exact ⟨e, by unfold gaussian; rw [hA]⟩

theorem generalizedBell_error_of_nonfinite (x a b c : JSNum)
    (h : ¬(isFiniteNumber x = true ∧ isFiniteNumber a = true ∧ isFiniteNumber b = true ∧
      isFiniteNumber c = true)) :
    ∃ e, generalizedBell x a b c = .error e := by
  obtain ⟨e, hA⟩ := assert_error_total "generalizedBell" [("x", x), ("a", a), ("b", b), ("c", c)]
    (fun hall => h ⟨hall ("x", x) (by simp), hall ("a", a) (by simp), hall ("b", b) (by simp),
      hall ("c", c) (by simp)⟩)
  exact ⟨e, by unfold generalizedBell; rw [hA]⟩

theorem sigmoid_error_of_nonfinite (x a c : JSNum)
    (h : ¬(isFiniteNumber x = true ∧ isFiniteNumber a = true ∧ isFiniteNumber c = true)) :
    ∃ e, sigmoid x a c = .error e := by
  obtain ⟨e, hA⟩ := assert_error_total "sigmoid" [("x", x), ("a", a), ("c", c)]
    (fun hall => h ⟨hall ("x", x) (by simp), hall ("a", a) (by simp), hall ("c", c) (by simp)⟩)
  exact ⟨e, by unfold sigmoid; rw [hA]⟩

theorem sCurve_error_of_nonfinite (x a b : JSNum)
    (h : ¬(isFiniteNumber x = true ∧ isFiniteNumber a = true ∧ isFiniteNumber b = true)) :
    ∃ e, sCurve x a b = .error e := by
  obtain ⟨e, hA⟩ := assert_error_total "sCurve" [("x", x), ("a", a), ("b", b)]
    (fun hall => h ⟨hall ("x", x) (by simp), hall ("a", a) (by simp), hall ("b", b) (by simp)⟩)
  exact ⟨e, by unfold sCurve; rw [hA]⟩

theorem zCurve_error_of_nonfinite (x a b : JSNum)
    (h : ¬(isFiniteNumber x = true ∧ isFiniteNumber a = true ∧ isFiniteNumber b = true)) :
    ∃ e, zCurve x a b = .error e := by
  obtain ⟨e, hA⟩ := assert_error_total "zCurve" [("x", x), ("a", a), ("b", b)]
    (fun hall => h ⟨hall ("x", x) (by simp), hall ("a", a) (by simp), hall ("b", b) (by simp)⟩)
  exact ⟨e, by unfold zCurve; rw [hA]⟩

theorem piCurve_error_of_nonfinite (x a b c d : JSNum)
    (h : ¬(isFiniteNumber x = true ∧ isFiniteNumber a = true ∧ isFiniteNumber b = true ∧
      isFiniteNumber c = true ∧ isFiniteNumber d = true)) :
    ∃ e, piCurve x a b c d = .error e := by
  obtain ⟨e, hA⟩ := assert_error_total "piCurve"
    [("x", x), ("a", a), ("b", b), ("c", c), ("d", d)]
    (fun hall => h ⟨hall ("x", x) (by simp), hall ("a", a) (by simp), hall ("b", b) (by simp),
      hall ("c", c) (by simp), hall ("d", d) (by simp)⟩)
  exact ⟨e, by unfold piCurve; rw [hA]⟩

theorem singleton_error_of_nonfinite (x c : JSNum)
    (h : ¬(isFiniteNumber x = true ∧ isFiniteNumber c = true)) :
    ∃ e, singleton x c = .error e := by
  obtain ⟨e, hA⟩ := assert_error_total "singleton" [("x", x), ("c", c)]
    (fun hall => h ⟨hall ("x", x) (by simp), hall ("c", c) (by simp)⟩)
  exact ⟨e, by unfold singleton; rw [hA]⟩

/-- Every error message `zCurve` produces starts with `"zCurve"`. -/
theorem zCurve_error_shape (x a b : JSNum) (e : String) (h : zCurve x a b = .error e) :
    ∃ s, e = "zCurve" ++ s := by
  unfold zCurve at h
  cases hA : assertFiniteNumbers "zCurve" [("x", x), ("a", a), ("b", b)] with
  | error e2 =>
    rw [hA] at h
    injection h with h
    exact h ▸ assertFiniteNumbers_error_shape _ _ _ hA
  | ok u =>
    cases u
    rw [hA] at h
    dsimp only at h
    split_ifs at h
    injection h with h
    exact ⟨": require a < b", h.symm⟩

/-- Every error message `sCurve` produces starts with `"sCurve"`. -/
theorem sCurve_error_shape (x a b : JSNum) (e : String) (h : sCurve x a b = .error e) :
    ∃ s, e = "sCurve" ++ s := by
  unfold sCurve at h
  cases hA : assertFiniteNumbers "sCurve" [("x", x), ("a", a), ("b", b)] with
  | error e2 =>
    rw [hA] at h
    injection h with h
    exact h ▸ assertFiniteNumbers_error_shape _ _ _ hA
  | ok u =>
    cases u
    rw [hA] at h
    dsimp only at h
    split_ifs at h
    injection h with h
    exact ⟨": require a < b", h.symm⟩

/-- A finite `JSNum` is the `fin` constructor on its payload. -/
theorem JSNum.eq_fin_of_isFinite (v : JSNum) (h : isFiniteNumber v = true) :
    v = .fin v.toQ := by
  cases v with
  | fin q => rfl
  | nan => exact absurd h (by simp [isFiniteNumber])
  | posInf => exact absurd h (by simp [isFiniteNumber])
  | negInf => exact absurd h (by simp [isFiniteNumber])

/-- Every error message `triangular` produces starts with `"triangular"`. -/
theorem triangular_error_shape (x a b c : JSNum) (e : String)
    (h : triangular x a b c = .error e) : ∃ s, e = "triangular" ++ s := by
  unfold triangular at h
  cases hA : assertFiniteNumbers "triangular" [("x", x), ("a", a), ("b", b), ("c", c)] with
  | error e2 =>
    rw [hA] at h
    injection h with h
    exact h ▸ assertFiniteNumbers_error_shape _ _ _ hA
  | ok u =>
    cases u
    rw [hA] at h
    dsimp only at h
    split_ifs at h
    injection h with h
    exact ⟨": require a <= b <= c", h.symm⟩

/-- Every error message `trapezoidal` produces starts with `"trapezoidal"`. -/
theorem trapezoidal_error_shape (x a b c d : JSNum) (e : String)
    (h : trapezoidal x a b c d = .error e) : ∃ s, e = "trapezoidal" ++ s := by
  unfold trapezoidal at h
  cases hA : assertFiniteNumbers "trapezoidal"
      [("x", x), ("a", a), ("b", b), ("c", c), ("d", d)] with
  | error e2 =>
    rw [hA] at h
    injection h with h
    exact h ▸ assertFiniteNumbers_error_shape _ _ _ hA
  | ok u =>
    cases u
    rw [hA] at h
    dsimp only at h
    split_ifs at h
    injection h with h
    exact ⟨": require a <= b <= c <= d", h.symm⟩

/-- Every error message `gaussian` produces starts with `"gaussian"`. -/
theorem gaussian_error_shape (x mu sigma : JSNum) (e : String)
    (h : gaussian x mu sigma = .error e) : ∃ s, e = "gaussian" ++ s := by
  unfold gaussian at h
  cases hA : assertFiniteNumbers "gaussian" [("x", x), ("mu", mu), ("sigma", sigma)] with
  | error e2 =>
    rw [hA] at h
    injection h with h
    exact h ▸ assertFiniteNumbers_error_shape _ _ _ hA
  | ok u =>
    cases u
    rw [hA] at h
    dsimp only at h
    split_ifs at h
    injection h with h
    exact ⟨": require sigma > 0", h.symm⟩

/-- Every error message `generalizedBell` produces starts with
`"generalizedBell"`. -/
theorem generalizedBell_error_shape (x a b c : JSNum) (e : String)
    (h : generalizedBell x a b c = .error e) : ∃ s, e = "generalizedBell" ++ s := by
  unfold generalizedBell at h
  cases hA : assertFiniteNumbers "generalizedBell"
      [("x", x), ("a", a), ("b", b), ("c", c)] with
  | error e2 =>
    rw [hA] at h
    injection h with h
    exact h ▸ assertFiniteNumbers_error_shape _ _ _ hA
  | ok u =>
    cases u
    rw [hA] at h
    dsimp only at h
    split_ifs at h
    · injection h with h
      exact ⟨": require a != 0", h.symm⟩
    · injection h with h
      exact ⟨": require b > 0", h.symm⟩

/-- `sigmoid` only throws from the finiteness assertion, so every error
message starts with `"sigmoid"`. -/
theorem sigmoid_error_shape (x a c : JSNum) (e : String)
    (h : sigmoid x a c = .error e) : ∃ s, e = "sigmoid" ++ s := by
  unfold sigmoid at h
  cases hA : assertFiniteNumbers "sigmoid" [("x", x), ("a", a), ("c", c)] with
  | error e2 =>
    rw [hA] at h
    injection h with h
    exact h ▸ assertFiniteNumbers_error_shape _ _ _ hA
  | ok u =>
    cases u
    rw [hA] at h
    simp at h

/-- Every error message `piCurve` produces starts with `"piCurve"`: the
delegated `sCurve`/`zCurve` calls happen with finite arguments on non-empty
ramps, so they never contribute an error. -/
theorem piCurve_error_shape (x a b c d : JSNum) (e : String)
    (h : piCurve x a b c d = .error e) : ∃ s, e = "piCurve" ++ s := by
  unfold piCurve at h
  cases hA : assertFiniteNumbers "piCurve"
      [("x", x), ("a", a), ("b", b), ("c", c), ("d", d)] with
  | error e2 =>
    rw [hA] at h
    injection h with h
    exact h ▸ assertFiniteNumbers_error_shape _ _ _ hA
  | ok u =>
    cases u
    have hall := (assertFiniteNumbers_ok_iff _ _).mp hA
    have hx := JSNum.eq_fin_of_isFinite x (hall ("x", x) (by simp))
    have ha := JSNum.eq_fin_of_isFinite a (hall ("a", a) (by simp))
    have hb := JSNum.eq_fin_of_isFinite b (hall ("b", b) (by simp))
    have hc := JSNum.eq_fin_of_isFinite c (hall ("c", c) (by simp))
    have hd := JSNum.eq_fin_of_isFinite d (hall ("d", d) (by simp))
    rw [hA] at h
    dsimp only at h
    split_ifs at h with h1 h2 h3 h4 h5
    · rw [hx, ha, hb] at h
      obtain ⟨v, hv, -, -⟩ := sCurve_mem x.toQ a.toQ b.toQ (lt_trans h4.1 h4.2)
      rw [hv] at h
      exact absurd h (by simp)
    · rw [hx, hc, hd] at h
      obtain ⟨v, hv, -, -⟩ := zCurve_mem x.toQ c.toQ d.toQ (lt_trans h5.1 h5.2)
      rw [hv] at h
      exact absurd h (by simp)
    · injection h with h
      exact ⟨": require a <= b <= c <= d", h.symm⟩

/-- `singleton` only throws from the finiteness assertion, so every error
message starts with `"singleton"`. -/
theorem singleton_error_shape (x c : JSNum) (e : String)
    (h : singleton x c = .error e) : ∃ s, e = "singleton" ++ s := by
  unfold singleton at h
  cases hA : assertFiniteNumbers "singleton" [("x", x), ("c", c)] with
  | error e2 =>
    rw [hA] at h
    injection h with h
    exact h ▸ assertFiniteNumbers_error_shape _ _ _ hA
  | ok u =>
    cases u
    rw [hA] at h
    simp at h

theorem triangular_error_of_constraint (x a b c : ℚ) (h : ¬(a ≤ b ∧ b ≤ c)) :
    triangular (.fin x) (.fin a) (.fin b) (.fin c) =
      .error "triangular: require a <= b <= c" := by
  rw [triangular_fin, if_pos h]

theorem trapezoidal_error_of_constraint (x a b c d : ℚ) (h : ¬(a ≤ b ∧ b ≤ c ∧ c ≤ d)) :
    trapezoidal (.fin x) (.fin a) (.fin b) (.fin c) (.fin d) =
      .error "trapezoidal: require a <= b <= c <= d" := by
  rw [trapezoidal_fin, if_pos h]

theorem gaussian_error_of_constraint (x mu sigma : ℚ) (h : ¬(sigma > 0)) :
    gaussian (.fin x) (.fin mu) (.fin sigma) = .error "gaussian: require sigma > 0" := by
  rw [gaussian_fin, if_pos h]

theorem generalizedBell_error_of_zero (x b c : ℚ) :
    generalizedBell (.fin x) (.fin 0) (.fin b) (.fin c) =
      .error "generalizedBell: require a != 0" := by
  rw [generalizedBell_fin, if_pos rfl]

theorem generalizedBell_error_of_slope (x a b c : ℚ) (ha : a ≠ 0) (hb : ¬(b > 0)) :
    generalizedBell (.fin x) (.fin a) (.fin b) (.fin c) =
      .error "generalizedBell: require b > 0" := by
  rw [generalizedBell_fin, if_neg ha, if_pos hb]

theorem sCurve_error_of_constraint (x a b : ℚ) (h : ¬(a < b)) :
    sCurve (.fin x) (.fin a) (.fin b) = .error "sCurve: require a < b" := by
  rw [sCurve_fin, if_pos h]

theorem zCurve_error_of_constraint (x a b : ℚ) (h : ¬(a < b)) :
    zCurve (.fin x) (.fin a) (.fin b) = .error "zCurve: require a < b" := by
  rw [zCurve_fin, if_pos h]

theorem piCurve_error_of_constraint (x a b c d : ℚ) (h : ¬(a ≤ b ∧ b ≤ c ∧ c ≤ d)) :
    piCurve (.fin x) (.fin a) (.fin b) (.fin c) (.fin d) =
      .error "piCurve: require a <= b <= c <= d" := by
  rw [piCurve_fin, if_pos h]

/-- `clamp01` restricts its argument to `[0, 1]` in the `max`/`min` sense. -/
theorem clamp01_eq_max_min (v : ℚ) : clamp01 v = max 0 (min 1 v) := by
  unfold clamp01
  split_ifs with h1 h2
  · rw [min_eq_right (by linarith), max_eq_left (by linarith)]
  · rw [min_eq_left (by linarith), max_eq_right (by linarith)]
  · rw [min_eq_right (by linarith), max_eq_right (by linarith)]

/-! ### The claims -/

/-- C1: for every catalogue function (triangular, trapezoidal, gaussian,
generalizedBell, sigmoid, sCurve, zCurve, piCurve, leftShoulder,
rightShoulder, singleton) and every parameterization satisfying that
function's constraints, the value returned for every finite input `x` lies in
the closed interval `[0, 1]`. -/
theorem claim_c1_catalogue_range :
    (∀ x a b c : ℚ, a ≤ b → b ≤ c →
      ∃ v, triangular (.fin x) (.fin a) (.fin b) (.fin c) = .ok v ∧ 0 ≤ v ∧ v ≤ 1) ∧
    (∀ x a b c d : ℚ, a ≤ b → b ≤ c → c ≤ d →
      ∃ v, trapezoidal (.fin x) (.fin a) (.fin b) (.fin c) (.fin d) = .ok v ∧ 0 ≤ v ∧ v ≤ 1) ∧
    (∀ x mu sigma : ℚ, 0 < sigma →
      ∃ v : ℝ, gaussian (.fin x) (.fin mu) (.fin sigma) = .ok v ∧ 0 ≤ v ∧ v ≤ 1) ∧
    (∀ x a b c : ℚ, a ≠ 0 → 0 < b →
      ∃ v : ℝ, generalizedBell (.fin x) (.fin a) (.fin b) (.fin c) = .ok v ∧ 0 ≤ v ∧ v ≤ 1) ∧
    (∀ x a c : ℚ, ∃ v : ℝ, sigmoid (.fin x) (.fin a) (.fin c) = .ok v ∧ 0 ≤ v ∧ v ≤ 1) ∧
    (∀ x a b : ℚ, a < b →
      ∃ v, sCurve (.fin x) (.fin a) (.fin b) = .ok v ∧ 0 ≤ v ∧ v ≤ 1) ∧
    (∀ x a b : ℚ, a < b →
      ∃ v, zCurve (.fin x) (.fin a) (.fin b) = .ok v ∧ 0 ≤ v ∧ v ≤ 1) ∧
    (∀ x a b c d : ℚ, a ≤ b → b ≤ c → c ≤ d →
      ∃ v, piCurve (.fin x) (.fin a) (.fin b) (.fin c) (.fin d) = .ok v ∧ 0 ≤ v ∧ v ≤ 1) ∧
    (∀ x a b : ℚ, a < b →
      ∃ v, leftShoulder (.fin x) (.fin a) (.fin b) = .ok v ∧ 0 ≤ v ∧ v ≤ 1) ∧
    (∀ x a b : ℚ, a < b →
      ∃ v, rightShoulder (.fin x) (.fin a) (.fin b) = .ok v ∧ 0 ≤ v ∧ v ≤ 1) ∧
    (∀ x c : ℚ, ∃ v, singleton (.fin x) (.fin c) = .ok v ∧ 0 ≤ v ∧ v ≤ 1) :=
  ⟨triangular_mem, trapezoidal_mem, gaussian_mem, generalizedBell_mem, sigmoid_mem,
    sCurve_mem, zCurve_mem, piCurve_mem,
    fun x a b hab => zCurve_mem x a b hab,
    fun x a b hab => sCurve_mem x a b hab, singleton_mem⟩

/-- Witness for C1: each catalogue function evaluated at one concrete valid
parameterization. -/
theorem claim_c1_catalogue_range_witness :
    (∃ v, triangular (.fin 2) (.fin 0) (.fin 3) (.fin 5) = .ok v ∧ 0 ≤ v ∧ v ≤ 1) ∧
    (∃ v, trapezoidal (.fin 1) (.fin 0) (.fin 2) (.fin 8) (.fin 10) = .ok v ∧ 0 ≤ v ∧ v ≤ 1) ∧
    (∃ v : ℝ, gaussian (.fin 0) (.fin 0) (.fin 1) = .ok v ∧ 0 ≤ v ∧ v ≤ 1) ∧
    (∃ v : ℝ, generalizedBell (.fin 0) (.fin 2) (.fin 1) (.fin 0) = .ok v ∧ 0 ≤ v ∧ v ≤ 1) ∧
    (∃ v : ℝ, sigmoid (.fin 0) (.fin 1) (.fin 0) = .ok v ∧ 0 ≤ v ∧ v ≤ 1) ∧
    (∃ v, sCurve (.fin 1) (.fin 0) (.fin 2) = .ok v ∧ 0 ≤ v ∧ v ≤ 1) ∧
    (∃ v, zCurve (.fin 1) (.fin 0) (.fin 2) = .ok v ∧ 0 ≤ v ∧ v ≤ 1) ∧
    (∃ v, piCurve (.fin 1) (.fin 0) (.fin 1) (.fin 2) (.fin 3) = .ok v ∧ 0 ≤ v ∧ v ≤ 1) ∧
    (∃ v, leftShoulder (.fin 1) (.fin 0) (.fin 2) = .ok v ∧ 0 ≤ v ∧ v ≤ 1) ∧
    (∃ v, rightShoulder (.fin 1) (.fin 0) (.fin 2) = .ok v ∧ 0 ≤ v ∧ v ≤ 1) ∧
    (∃ v, singleton (.fin 1) (.fin 1) = .ok v ∧ 0 ≤ v ∧ v ≤ 1) := by
  obtain ⟨h1, h2, h3, h4, h5, h6, h7, h8, h9, h10, h11⟩ := claim_c1_catalogue_range
  exact ⟨h1 2 0 3 5 (by norm_num) (by norm_num),
    h2 1 0 2 8 10 (by norm_num) (by norm_num) (by norm_num),
    h3 0 0 1 (by norm_num),
    h4 0 2 1 0 (by norm_num) (by norm_num),
    h5 0 1 0,
    h6 1 0 2 (by norm_num),
    h7 1 0 2 (by norm_num),
    h8 1 0 1 2 3 (by norm_num) (by norm_num) (by norm_num),
    h9 1 0 2 (by norm_num),
    h10 1 0 2 (by norm_num),
    h11 1 1⟩

/-- C3 counterexample: `a = b = 0 ≤ c = 1` is a valid parameterization, yet
`triangular(b; a, b, c)` returns `0`, not `1`, because the `x ≤ a` guard fires
before the `x = b` peak case. -/
theorem claim_c3_counterexample :
    (0:ℚ) ≤ 0 ∧ (0:ℚ) ≤ 1 ∧
    triangular (.fin 0) (.fin 0) (.fin 0) (.fin 1) = .ok 0 ∧
    triangular (.fin 0) (.fin 0) (.fin 0) (.fin 1) ≠ .ok 1 := by
  have h : triangular (.fin 0) (.fin 0) (.fin 0) (.fin 1) = .ok 0 := by
    rw [triangular_fin]; norm_num
  refine ⟨le_refl _, by norm_num, h, ?_⟩
  rw [h]
  intro hc
  exact absurd (Except.ok.inj hc) (by norm_num)

/-- C3 (amended): for every parameterization with `a < b < c`,
`triangular(b; a, b, c)` returns exactly `1`. -/
theorem claim_c3_amended (a b c : ℚ) (hab : a < b) (hbc : b < c) :
    triangular (.fin b) (.fin a) (.fin b) (.fin c) = .ok 1 := by
  rw [triangular_fin, if_neg (not_not_intro ⟨le_of_lt hab, le_of_lt hbc⟩)]
  have h1 : ¬(b ≤ a ∨ b ≥ c) := by push_neg; exact ⟨hab, hbc⟩
  rw [if_neg h1, if_pos rfl]

/-- Witness for the amended C3: `triangular(5, 0, 5, 10) = 1`. -/
theorem claim_c3_amended_witness :
    (0:ℚ) < 5 ∧ (5:ℚ) < 10 ∧
    triangular (.fin 5) (.fin 0) (.fin 5) (.fin 10) = .ok 1 :=
  ⟨by norm_num, by norm_num, claim_c3_amended 0 5 10 (by norm_num) (by norm_num)⟩

/-- C4 counterexample: `a = b = 0 ≤ c = 1 ≤ d = 2` is valid and `x = 0` lies
in the plateau `[b, c]`, yet `trapezoidal` returns `0`, not `1`, because the
`x ≤ a` boundary guard fires first. -/
theorem claim_c4_counterexample :
    (0:ℚ) ≤ 0 ∧ (0:ℚ) ≤ 1 ∧ (1:ℚ) ≤ 2 ∧ (0:ℚ) ≤ 0 ∧ (0:ℚ) ≤ 1 ∧
    trapezoidal (.fin 0) (.fin 0) (.fin 0) (.fin 1) (.fin 2) = .ok 0 ∧
    trapezoidal (.fin 0) (.fin 0) (.fin 0) (.fin 1) (.fin 2) ≠ .ok 1 := by
  have h : trapezoidal (.fin 0) (.fin 0) (.fin 0) (.fin 1) (.fin 2) = .ok 0 := by
    rw [trapezoidal_fin]; norm_num
  refine ⟨le_refl _, by norm_num, by norm_num, le_refl _, by norm_num, h, ?_⟩
  rw [h]
  intro hc
  exact absurd (Except.ok.inj hc) (by norm_num)

/-- C4 (amended): for every valid `a ≤ b ≤ c ≤ d` and every `x ∈ [b, c]` with
`a < x < d`, `trapezoidal` returns exactly `1` (at `x = a` or `x = d` the
boundary-zero rule wins instead). -/
theorem claim_c4_amended (x a b c d : ℚ) (hab : a ≤ b) (hbc : b ≤ c) (hcd : c ≤ d)
    (hbx : b ≤ x) (hxc : x ≤ c) (hax : a < x) (hxd : x < d) :
    trapezoidal (.fin x) (.fin a) (.fin b) (.fin c) (.fin d) = .ok 1 := by
  rw [trapezoidal_fin, if_neg (not_not_intro ⟨hab, hbc, hcd⟩)]
  have h1 : ¬(x ≤ a ∨ x ≥ d) := by push_neg; exact ⟨hax, hxd⟩
  rw [if_neg h1, if_pos ⟨hbx, hxc⟩]

/-- Witness for the amended C4: `trapezoidal(5, 0, 2, 8, 10) = 1`. -/
theorem claim_c4_amended_witness :
    (0:ℚ) ≤ 2 ∧ (2:ℚ) ≤ 8 ∧ (8:ℚ) ≤ 10 ∧ (2:ℚ) ≤ 5 ∧ (5:ℚ) ≤ 8 ∧ (0:ℚ) < 5 ∧ (5:ℚ) < 10 ∧
    trapezoidal (.fin 5) (.fin 0) (.fin 2) (.fin 8) (.fin 10) = .ok 1 :=
  ⟨by norm_num, by norm_num, by norm_num, by norm_num, by norm_num, by norm_num, by norm_num,
    claim_c4_amended 5 0 2 8 10 (by norm_num) (by norm_num) (by norm_num) (by norm_num)
      (by norm_num) (by norm_num) (by norm_num)⟩

/-- C5: for every finite `a < b` and every finite `x`,
`sCurve(x, a, b) + zCurve(x, a, b) = 1` exactly. -/
theorem claim_c5_s_z_complementary (x a b : ℚ) (hab : a < b) :
    ∃ s z, sCurve (.fin x) (.fin a) (.fin b) = .ok s ∧
      zCurve (.fin x) (.fin a) (.fin b) = .ok z ∧ s + z = 1 := by
  rw [sCurve_fin, zCurve_fin, if_neg (not_not_intro hab), if_neg (not_not_intro hab)]
  split_ifs
  · exact ⟨0, 1, rfl, rfl, by ring⟩
  · exact ⟨1, 0, rfl, rfl, by ring⟩
  · exact ⟨_, _, rfl, rfl, by ring⟩
  · exact ⟨_, _, rfl, rfl, by ring⟩

/-- Witness for C5 at `x = 1`, `a = 0`, `b = 4`. -/
theorem claim_c5_s_z_complementary_witness :
    (0:ℚ) < 4 ∧ ∃ s z, sCurve (.fin 1) (.fin 0) (.fin 4) = .ok s ∧
      zCurve (.fin 1) (.fin 0) (.fin 4) = .ok z ∧ s + z = 1 :=
  ⟨by norm_num, claim_c5_s_z_complementary 1 0 4 (by norm_num)⟩

/-- C6: `complement` round-trips every `μ ∈ [0, 1]`, and on any finite `μ`
(also outside `[0, 1]`) it does not throw but returns `1 − μ` clamped to
`[0, 1]`. -/
theorem claim_c6_complement :
    (∀ mu : ℚ, 0 ≤ mu → mu ≤ 1 →
      ∃ v, complement (.fin mu) = .ok v ∧ complement (.fin v) = .ok mu) ∧
    (∀ mu : ℚ, complement (.fin mu) = .ok (max 0 (min 1 (1 - mu)))) := by
  constructor
  · intro mu h0 h1
    have e1 : complement (.fin mu) = .ok (1 - mu) := by
      rw [complement_fin]
      congr 1
      unfold clamp01
      rw [if_neg (by linarith), if_neg (by linarith)]
    refine ⟨1 - mu, e1, ?_⟩
    rw [complement_fin]
    congr 1
    have e2 : (1:ℚ) - (1 - mu) = mu := by ring
    rw [e2]
    unfold clamp01
    rw [if_neg (by linarith), if_neg (by linarith)]
  · intro mu
    rw [complement_fin, clamp01_eq_max_min]

/-- Witness for C6: the round trip at `μ = 1/2` and the clamped result at the
out-of-range `μ = 2`. -/
theorem claim_c6_complement_witness :
    (0:ℚ) ≤ 1/2 ∧ (1/2:ℚ) ≤ 1 ∧
    (∃ v, complement (.fin (1/2)) = .ok v ∧ complement (.fin v) = .ok (1/2)) ∧
    complement (.fin 2) = .ok (max 0 (min 1 (1 - 2))) :=
  ⟨by norm_num, by norm_num, claim_c6_complement.1 (1/2) (by norm_num) (by norm_num),
    claim_c6_complement.2 2⟩

/-- C9: for every finite `a ≤ b ≤ c ≤ d` and finite `x`, `piCurve` never
throws: the branches delegating to `sCurve` and `zCurve` are only reachable
when the corresponding interval is non-empty, so the delegated strict
preconditions always hold. -/
theorem claim_c9_piCurve_total (x a b c d : ℚ) (hab : a ≤ b) (hbc : b ≤ c) (hcd : c ≤ d) :
    ∃ v, piCurve (.fin x) (.fin a) (.fin b) (.fin c) (.fin d) = .ok v := by
  obtain ⟨v, hv, -, -⟩ := piCurve_mem x a b c d hab hbc hcd
  exact ⟨v, hv⟩

/-- Witness for C9, with both ramps degenerate (`a = b`, `c = d`). -/
theorem claim_c9_piCurve_total_witness :
    (0:ℚ) ≤ 0 ∧ (0:ℚ) ≤ 1 ∧ (1:ℚ) ≤ 1 ∧
    ∃ v, piCurve (.fin (1/2)) (.fin 0) (.fin 0) (.fin 1) (.fin 1) = .ok v :=
  ⟨le_refl _, by norm_num, le_refl _,
    claim_c9_piCurve_total (1/2) 0 0 1 1 (le_refl 0) (by norm_num) (le_refl 1)⟩

/-- C2 counterexample: with the valid parameterization `a = b = 0, c = 1,
d = 2` the point `x = 0` lies in the plateau `[b, c]`, yet `piCurve` returns
`0`, not `1`: the `x ≤ a` boundary guard fires first. -/
theorem claim_c2_counterexample :
    (0:ℚ) ≤ 0 ∧ (0:ℚ) ≤ 1 ∧ (1:ℚ) ≤ 2 ∧ (0:ℚ) ≤ 0 ∧ (0:ℚ) ≤ 1 ∧
    piCurve (.fin 0) (.fin 0) (.fin 0) (.fin 1) (.fin 2) = .ok 0 ∧
    piCurve (.fin 0) (.fin 0) (.fin 0) (.fin 1) (.fin 2) ≠ .ok 1 := by
  have h : piCurve (.fin 0) (.fin 0) (.fin 0) (.fin 1) (.fin 2) = .ok 0 := by
    rw [piCurve_fin]; norm_num
  refine ⟨le_refl _, by norm_num, by norm_num, le_refl _, by norm_num, h, ?_⟩
  rw [h]
  intro hc
  exact absurd (Except.ok.inj hc) (by norm_num)

/-- C2 (amended): for every valid `a ≤ b ≤ c ≤ d`, `piCurve` equals
`sCurve(x, a, b)` on `(a, b)`, equals `zCurve(x, c, d)` on `(c, d)`, equals
`1` on `[b, c]` restricted to `a < x < d` (at `x = a` or `x = d` the
boundary-zero rule wins), and equals `0` strictly outside `[a, d]`. -/
theorem claim_c2_amended (x a b c d : ℚ) (hab : a ≤ b) (hbc : b ≤ c) (hcd : c ≤ d) :
    (a < x → x < b → piCurve (.fin x) (.fin a) (.fin b) (.fin c) (.fin d) =
      sCurve (.fin x) (.fin a) (.fin b)) ∧
    (c < x → x < d → piCurve (.fin x) (.fin a) (.fin b) (.fin c) (.fin d) =
      zCurve (.fin x) (.fin c) (.fin d)) ∧
    (b ≤ x → x ≤ c → a < x → x < d →
      piCurve (.fin x) (.fin a) (.fin b) (.fin c) (.fin d) = .ok 1) ∧
    (x < a ∨ d < x → piCurve (.fin x) (.fin a) (.fin b) (.fin c) (.fin d) = .ok 0) := by
  refine ⟨?_, ?_, ?_, ?_⟩
  · intro hax hxb
    rw [piCurve_fin, if_neg (not_not_intro ⟨hab, hbc, hcd⟩)]
    have h1 : ¬(x ≤ a ∨ x ≥ d) := by push_neg; exact ⟨hax, by linarith⟩
    have h2 : ¬(x ≥ b ∧ x ≤ c) := by push_neg; intro hbx; linarith
    rw [if_neg h1, if_neg h2, if_pos ⟨hax, hxb⟩]
  · intro hcx hxd
    rw [piCurve_fin, if_neg (not_not_intro ⟨hab, hbc, hcd⟩)]
    have h1 : ¬(x ≤ a ∨ x ≥ d) := by push_neg; exact ⟨by linarith, hxd⟩
    have h2 : ¬(x ≥ b ∧ x ≤ c) := by push_neg; intro hbx; linarith
    have h3 : ¬(x > a ∧ x < b) := by push_neg; intro hax; linarith
    rw [if_neg h1, if_neg h2, if_neg h3, if_pos ⟨hcx, hxd⟩]
  · intro hbx hxc hax hxd
    rw [piCurve_fin, if_neg (not_not_intro ⟨hab, hbc, hcd⟩)]
    have h1 : ¬(x ≤ a ∨ x ≥ d) := by push_neg; exact ⟨hax, hxd⟩
    rw [if_neg h1, if_pos ⟨hbx, hxc⟩]
  · intro hout
    rw [piCurve_fin, if_neg (not_not_intro ⟨hab, hbc, hcd⟩)]
    have h1 : x ≤ a ∨ x ≥ d := by
      rcases hout with h | h
      · exact Or.inl (le_of_lt h)
      · exact Or.inr (le_of_lt h)
    rw [if_pos h1]

/-- Witness for the amended C2 on `a = 0, b = 1, c = 2, d = 3`: one point in
each region. -/
theorem claim_c2_amended_witness :
    piCurve (.fin (1/2)) (.fin 0) (.fin 1) (.fin 2) (.fin 3) =
      sCurve (.fin (1/2)) (.fin 0) (.fin 1) ∧
    piCurve (.fin (5/2)) (.fin 0) (.fin 1) (.fin 2) (.fin 3) =
      zCurve (.fin (5/2)) (.fin 2) (.fin 3) ∧
    piCurve (.fin (3/2)) (.fin 0) (.fin 1) (.fin 2) (.fin 3) = .ok 1 ∧
    piCurve (.fin 4) (.fin 0) (.fin 1) (.fin 2) (.fin 3) = .ok 0 :=
  ⟨(claim_c2_amended (1/2) 0 1 2 3 (by norm_num) (by norm_num) (by norm_num)).1
      (by norm_num) (by norm_num),
    (claim_c2_amended (5/2) 0 1 2 3 (by norm_num) (by norm_num) (by norm_num)).2.1
      (by norm_num) (by norm_num),
    (claim_c2_amended (3/2) 0 1 2 3 (by norm_num) (by norm_num) (by norm_num)).2.2.1
      (by norm_num) (by norm_num) (by norm_num) (by norm_num),
    (claim_c2_amended 4 0 1 2 3 (by norm_num) (by norm_num) (by norm_num)).2.2.2
      (Or.inr (by norm_num))⟩

/-- C7: every catalogue function throws (`Except.error`, never a sentinel
value) on invalid parameters; the finiteness check fires before the
shape-constraint check.  The concrete cases: `triangular(5, 3, 2, 1)` throws
the ordering error, `gaussian(0, 0, 0)` throws the `sigma > 0` error, and
`gaussian(0, 0, NaN)` throws the finiteness error, not the `sigma > 0`
error. -/
theorem claim_c7_error_policy :
    (∀ x a b c : JSNum, ¬(isFiniteNumber x = true ∧ isFiniteNumber a = true ∧
        isFiniteNumber b = true ∧ isFiniteNumber c = true) →
      ∃ e, triangular x a b c = .error e) ∧
    (∀ x a b c d : JSNum, ¬(isFiniteNumber x = true ∧ isFiniteNumber a = true ∧
        isFiniteNumber b = true ∧ isFiniteNumber c = true ∧ isFiniteNumber d = true) →
      ∃ e, trapezoidal x a b c d = .error e) ∧
    (∀ x mu sigma : JSNum, ¬(isFiniteNumber x = true ∧ isFiniteNumber mu = true ∧
        isFiniteNumber sigma = true) →
      ∃ e, gaussian x mu sigma = .error e) ∧
    (∀ x a b c : JSNum, ¬(isFiniteNumber x = true ∧ isFiniteNumber a = true ∧
        isFiniteNumber b = true ∧ isFiniteNumber c = true) →
      ∃ e, generalizedBell x a b c = .error e) ∧
    (∀ x a c : JSNum, ¬(isFiniteNumber x = true ∧ isFiniteNumber a = true ∧
        isFiniteNumber c = true) →
      ∃ e, sigmoid x a c = .error e) ∧
    (∀ x a b : JSNum, ¬(isFiniteNumber x = true ∧ isFiniteNumber a = true ∧
        isFiniteNumber b = true) →
      ∃ e, sCurve x a b = .error e) ∧
    (∀ x a b : JSNum, ¬(isFiniteNumber x = true ∧ isFiniteNumber a = true ∧
        isFiniteNumber b = true) →
      ∃ e, zCurve x a b = .error e) ∧
    (∀ x a b c d : JSNum, ¬(isFiniteNumber x = true ∧ isFiniteNumber a = true ∧
        isFiniteNumber b = true ∧ isFiniteNumber c = true ∧ isFiniteNumber d = true) →
      ∃ e, piCurve x a b c d = .error e) ∧
    (∀ x a b : JSNum, ¬(isFiniteNumber x = true ∧ isFiniteNumber a = true ∧
        isFiniteNumber b = true) →
      ∃ e, leftShoulder x a b = .error e) ∧
    (∀ x a b : JSNum, ¬(isFiniteNumber x = true ∧ isFiniteNumber a = true ∧
        isFiniteNumber b = true) →
      ∃ e, rightShoulder x a b = .error e) ∧
    (∀ x c : JSNum, ¬(isFiniteNumber x = true ∧ isFiniteNumber c = true) →
      ∃ e, singleton x c = .error e) ∧
    (∀ x a b c : ℚ, ¬(a ≤ b ∧ b ≤ c) → triangular (.fin x) (.fin a) (.fin b) (.fin c) =
      .error "triangular: require a <= b <= c") ∧
    (∀ x a b c d : ℚ, ¬(a ≤ b ∧ b ≤ c ∧ c ≤ d) →
      trapezoidal (.fin x) (.fin a) (.fin b) (.fin c) (.fin d) =
        .error "trapezoidal: require a <= b <= c <= d") ∧
    (∀ x mu sigma : ℚ, ¬(sigma > 0) → gaussian (.fin x) (.fin mu) (.fin sigma) =
      .error "gaussian: require sigma > 0") ∧
    (∀ x b c : ℚ, generalizedBell (.fin x) (.fin 0) (.fin b) (.fin c) =
      .error "generalizedBell: require a != 0") ∧
    (∀ x a b c : ℚ, a ≠ 0 → ¬(b > 0) → generalizedBell (.fin x) (.fin a) (.fin b) (.fin c) =
      .error "generalizedBell: require b > 0") ∧
    (∀ x a b : ℚ, ¬(a < b) → sCurve (.fin x) (.fin a) (.fin b) =
      .error "sCurve: require a < b") ∧
    (∀ x a b : ℚ, ¬(a < b) → zCurve (.fin x) (.fin a) (.fin b) =
      .error "zCurve: require a < b") ∧
    (∀ x a b c d : ℚ, ¬(a ≤ b ∧ b ≤ c ∧ c ≤ d) →
      piCurve (.fin x) (.fin a) (.fin b) (.fin c) (.fin d) =
        .error "piCurve: require a <= b <= c <= d") ∧
    (∀ x a b : ℚ, ¬(a < b) → leftShoulder (.fin x) (.fin a) (.fin b) =
      .error "zCurve: require a < b") ∧
    (∀ x a b : ℚ, ¬(a < b) → rightShoulder (.fin x) (.fin a) (.fin b) =
      .error "sCurve: require a < b") ∧
    triangular (.fin 5) (.fin 3) (.fin 2) (.fin 1) =
      .error "triangular: require a <= b <= c" ∧
    gaussian (.fin 0) (.fin 0) (.fin 0) = .error "gaussian: require sigma > 0" ∧
    gaussian (.fin 0) (.fin 0) .nan =
      .error "gaussian: parameter 'sigma' must be a finite number." :=
  ⟨triangular_error_of_nonfinite, trapezoidal_error_of_nonfinite, gaussian_error_of_nonfinite,
    generalizedBell_error_of_nonfinite, sigmoid_error_of_nonfinite, sCurve_error_of_nonfinite,
    zCurve_error_of_nonfinite, piCurve_error_of_nonfinite,
    fun x a b h => zCurve_error_of_nonfinite x a b h,
    fun x a b h => sCurve_error_of_nonfinite x a b h,
    singleton_error_of_nonfinite,
    triangular_error_of_constraint, trapezoidal_error_of_constraint,
    gaussian_error_of_constraint, generalizedBell_error_of_zero, generalizedBell_error_of_slope,
    sCurve_error_of_constraint, zCurve_error_of_constraint, piCurve_error_of_constraint,
    fun x a b h => zCurve_error_of_constraint x a b h,
    fun x a b h => sCurve_error_of_constraint x a b h,
    rfl, rfl, rfl⟩

/-- Witness for C7: a non-finite parameter makes each catalogue function
throw, and the three concrete invalid-parameter cases. -/
theorem claim_c7_error_policy_witness :
    (∃ e, triangular .nan (.fin 0) (.fin 1) (.fin 2) = .error e) ∧
    (∃ e, trapezoidal .posInf (.fin 0) (.fin 1) (.fin 2) (.fin 3) = .error e) ∧
    (∃ e, gaussian (.fin 0) .negInf (.fin 1) = .error e) ∧
    (∃ e, generalizedBell .nan (.fin 1) (.fin 1) (.fin 0) = .error e) ∧
    (∃ e, sigmoid .nan (.fin 1) (.fin 0) = .error e) ∧
    (∃ e, sCurve .nan (.fin 0) (.fin 1) = .error e) ∧
    (∃ e, zCurve .nan (.fin 0) (.fin 1) = .error e) ∧
    (∃ e, piCurve .nan (.fin 0) (.fin 1) (.fin 2) (.fin 3) = .error e) ∧
    (∃ e, leftShoulder .nan (.fin 0) (.fin 1) = .error e) ∧
    (∃ e, rightShoulder .nan (.fin 0) (.fin 1) = .error e) ∧
    (∃ e, singleton .nan (.fin 0) = .error e) ∧
    triangular (.fin 5) (.fin 3) (.fin 2) (.fin 1) =
      .error "triangular: require a <= b <= c" ∧
    gaussian (.fin 0) (.fin 0) (.fin 0) = .error "gaussian: require sigma > 0" ∧
    gaussian (.fin 0) (.fin 0) .nan =
      .error "gaussian: parameter 'sigma' must be a finite number." := by
  obtain ⟨t1, t2, t3, t4, t5, t6, t7, t8, t9, t10, t11, -, -, -, -, -, -, -, -, -, -,
    e1, e2, e3⟩ := claim_c7_error_policy
  exact ⟨t1 .nan (.fin 0) (.fin 1) (.fin 2) (by simp [isFiniteNumber]),
    t2 .posInf (.fin 0) (.fin 1) (.fin 2) (.fin 3) (by simp [isFiniteNumber]),
    t3 (.fin 0) .negInf (.fin 1) (by simp [isFiniteNumber]),
    t4 .nan (.fin 1) (.fin 1) (.fin 0) (by simp [isFiniteNumber]),
    t5 .nan (.fin 1) (.fin 0) (by simp [isFiniteNumber]),
    t6 .nan (.fin 0) (.fin 1) (by simp [isFiniteNumber]),
    t7 .nan (.fin 0) (.fin 1) (by simp [isFiniteNumber]),
    t8 .nan (.fin 0) (.fin 1) (.fin 2) (.fin 3) (by simp [isFiniteNumber]),
    t9 .nan (.fin 0) (.fin 1) (by simp [isFiniteNumber]),
    t10 .nan (.fin 0) (.fin 1) (by simp [isFiniteNumber]),
    t11 .nan (.fin 0) (by simp [isFiniteNumber]),
    e1, e2, e3⟩

/-- C8 counterexample: `leftShoulder` and `rightShoulder` with invalid
parameters raise errors whose messages name `zCurve` / `sCurve`, not
`leftShoulder` / `rightShoulder`. -/
theorem claim_c8_counterexample :
    leftShoulder (.fin 1) (.fin 1) (.fin 0) = .error "zCurve: require a < b" ∧
    List.isPrefixOf "leftShoulder".data "zCurve: require a < b".data = false ∧
    rightShoulder (.fin 1) (.fin 1) (.fin 0) = .error "sCurve: require a < b" ∧
    List.isPrefixOf "rightShoulder".data "sCurve: require a < b".data = false := by
  refine ⟨?_, by decide, ?_, by decide⟩
  · exact zCurve_error_of_constraint 1 1 0 (by norm_num)
  · exact sCurve_error_of_constraint 1 1 0 (by norm_num)

/-- C8 (amended): every error raised by a catalogue function carries a
message of the form `"<name>: <description>"` where `<name>` is the catalogue
function that performed the validation — proved for all eleven functions;
`leftShoulder` and `rightShoulder` delegate wholesale to `zCurve` and
`sCurve`, so on invalid parameters their errors name `zCurve` / `sCurve`, not
`leftShoulder` / `rightShoulder`. -/
theorem claim_c8_amended :
    (∀ x a b, leftShoulder x a b = zCurve x a b) ∧
    (∀ x a b, rightShoulder x a b = sCurve x a b) ∧
    (∀ x a b c e, triangular x a b c = .error e → ∃ s, e = "triangular" ++ s) ∧
    (∀ x a b c d e, trapezoidal x a b c d = .error e → ∃ s, e = "trapezoidal" ++ s) ∧
    (∀ x mu sigma e, gaussian x mu sigma = .error e → ∃ s, e = "gaussian" ++ s) ∧
    (∀ x a b c e, generalizedBell x a b c = .error e → ∃ s, e = "generalizedBell" ++ s) ∧
    (∀ x a c e, sigmoid x a c = .error e → ∃ s, e = "sigmoid" ++ s) ∧
    (∀ x a b e, sCurve x a b = .error e → ∃ s, e = "sCurve" ++ s) ∧
    (∀ x a b e, zCurve x a b = .error e → ∃ s, e = "zCurve" ++ s) ∧
    (∀ x a b c d e, piCurve x a b c d = .error e → ∃ s, e = "piCurve" ++ s) ∧
    (∀ x c e, singleton x c = .error e → ∃ s, e = "singleton" ++ s) ∧
    (∀ x a b e, leftShoulder x a b = .error e → ∃ s, e = "zCurve" ++ s) ∧
    (∀ x a b e, rightShoulder x a b = .error e → ∃ s, e = "sCurve" ++ s) ∧
    leftShoulder .nan (.fin 0) (.fin 1) =
      .error "zCurve: parameter 'x' must be a finite number." ∧
    rightShoulder (.fin 1) (.fin 1) (.fin 0) = .error "sCurve: require a < b" :=
  ⟨fun _ _ _ => rfl, fun _ _ _ => rfl, triangular_error_shape, trapezoidal_error_shape,
    gaussian_error_shape, generalizedBell_error_shape, sigmoid_error_shape,
    sCurve_error_shape, zCurve_error_shape, piCurve_error_shape, singleton_error_shape,
    fun x a b e h => zCurve_error_shape x a b e h,
    fun x a b e h => sCurve_error_shape x a b e h,
    rfl, sCurve_error_of_constraint 1 1 0 (by norm_num)⟩

/-- Witness for the amended C8: the error-shape components applied to
concrete failing calls of `triangular`, `leftShoulder` and `rightShoulder`. -/
theorem claim_c8_amended_witness :
    (∃ s, "triangular: require a <= b <= c" = "triangular" ++ s) ∧
    (∃ s, "zCurve: require a < b" = "zCurve" ++ s) ∧
    (∃ s, "sCurve: parameter 'x' must be a finite number." = "sCurve" ++ s) := by
  obtain ⟨-, -, ht, -, -, -, -, -, -, -, -, hl, hr, -, -⟩ := claim_c8_amended
  exact ⟨ht (.fin 5) (.fin 3) (.fin 2) (.fin 1) _ rfl,
    hl (.fin 1) (.fin 1) (.fin 0) _ (zCurve_error_of_constraint 1 1 0 (by norm_num)),
    hr .nan (.fin 0) (.fin 1) _ rfl⟩

/-- C10 counterexample: `triangular` with the single degenerate ramp
`a = b = 0` and `c = 10` returns the intermediate value `1/2` at `x = 5`,
contradicting the claim that the output is always exactly `0` or `1` for any
degenerate parameterization. -/
theorem claim_c10_counterexample :
    (0:ℚ) ≤ 0 ∧ (0:ℚ) ≤ 10 ∧
    triangular (.fin 5) (.fin 0) (.fin 0) (.fin 10) = .ok (1/2) ∧
    ((1:ℚ)/2 ≠ 0) ∧ ((1:ℚ)/2 ≠ 1) := by
  refine ⟨le_refl _, by norm_num, ?_, by norm_num, by norm_num⟩
  rw [triangular_fin]
  norm_num [clamp01]

/-- C10 (amended): for valid parameters the zero-width ramp branches are
unreachable, so every ramp output comes from a positive-width ramp with its
true denominator and the `EPSILON` fallback never fires; when both ramps are
degenerate (`triangular` with `a = b = c`, `trapezoidal` with `a = b` and
`c = d`) the function returns exactly `0` or `1` for every finite `x`.  A
single degenerate ramp still yields intermediate values on the other,
non-degenerate ramp. -/
theorem claim_c10_amended :
    (∀ x a b c : ℚ, a ≤ b → b ≤ c →
      ∃ v, triangular (.fin x) (.fin a) (.fin b) (.fin c) = .ok v ∧
        (v = 0 ∨ v = 1 ∨ (a < b ∧ v = clamp01 ((x - a) / (b - a))) ∨
          (b < c ∧ v = clamp01 ((c - x) / (c - b))))) ∧
    (∀ x a b c d : ℚ, a ≤ b → b ≤ c → c ≤ d →
      ∃ v, trapezoidal (.fin x) (.fin a) (.fin b) (.fin c) (.fin d) = .ok v ∧
        (v = 0 ∨ v = 1 ∨ (a < b ∧ v = clamp01 ((x - a) / (b - a))) ∨
          (c < d ∧ v = clamp01 ((d - x) / (d - c))))) ∧
    (∀ x b : ℚ, triangular (.fin x) (.fin b) (.fin b) (.fin b) = .ok 0) ∧
    (∀ x a c : ℚ, a ≤ c →
      trapezoidal (.fin x) (.fin a) (.fin a) (.fin c) (.fin c) =
        .ok (if a < x ∧ x < c then 1 else 0)) := by
  refine ⟨?_, ?_, ?_, ?_⟩
  · intro x a b c hab hbc
    rw [triangular_fin, if_neg (not_not_intro ⟨hab, hbc⟩)]
    split_ifs with h1 h2 h3 h4 h5 h6
    · exact ⟨0, rfl, Or.inl rfl⟩
    · exact ⟨1, rfl, Or.inr (Or.inl rfl)⟩
    · exact absurd (by linarith [h3.1, h3.2] : b - a ≠ 0) (not_not_intro h4)
    · exact ⟨_, rfl, Or.inr (Or.inr (Or.inl ⟨by linarith [h3.1, h3.2], rfl⟩))⟩
    · exact absurd (by linarith [h5.1, h5.2] : c - b ≠ 0) (not_not_intro h6)
    · exact ⟨_, rfl, Or.inr (Or.inr (Or.inr ⟨by linarith [h5.1, h5.2], rfl⟩))⟩
    · exact ⟨0, rfl, Or.inl rfl⟩
  · intro x a b c d hab hbc hcd
    rw [trapezoidal_fin, if_neg (not_not_intro ⟨hab, hbc, hcd⟩)]
    split_ifs with h1 h2 h3 h4 h5 h6
    · exact ⟨0, rfl, Or.inl rfl⟩
    · exact ⟨1, rfl, Or.inr (Or.inl rfl)⟩
    · exact absurd (by linarith [h3.1, h3.2] : b - a ≠ 0) (not_not_intro h4)
    · exact ⟨_, rfl, Or.inr (Or.inr (Or.inl ⟨by linarith [h3.1, h3.2], rfl⟩))⟩
    · exact absurd (by linarith [h5.1, h5.2] : d - c ≠ 0) (not_not_intro h6)
    · exact ⟨_, rfl, Or.inr (Or.inr (Or.inr ⟨by linarith [h5.1, h5.2], rfl⟩))⟩
    · exact ⟨0, rfl, Or.inl rfl⟩
  · intro x b
    rw [triangular_fin, if_neg (not_not_intro ⟨le_refl b, le_refl b⟩),
      if_pos (le_total x b)]
  · intro x a c hac
    by_cases hx : a < x ∧ x < c
    · rw [if_pos hx, trapezoidal_fin,
        if_neg (not_not_intro ⟨le_refl a, hac, le_refl c⟩)]
      have h1 : ¬(x ≤ a ∨ x ≥ c) := by push_neg; exact hx
      rw [if_neg h1, if_pos ⟨le_of_lt hx.1, le_of_lt hx.2⟩]
    · rw [if_neg hx, trapezoidal_fin,
        if_neg (not_not_intro ⟨le_refl a, hac, le_refl c⟩)]
      have h1 : x ≤ a ∨ x ≥ c := by
        push_neg at hx
        rcases le_or_lt x a with h | h
        · exact Or.inl h
        · exact Or.inr (hx h)
      rw [if_pos h1]

/-- Witness for the amended C10: the single-degenerate case `triangular(5;
0, 0, 10)`, the fully degenerate triangle, and the fully degenerate
trapezoid. -/
theorem claim_c10_amended_witness :
    (∃ v, triangular (.fin 5) (.fin 0) (.fin 0) (.fin 10) = .ok v ∧
      (v = 0 ∨ v = 1 ∨ ((0:ℚ) < 0 ∧ v = clamp01 ((5 - 0) / (0 - 0))) ∨
        ((0:ℚ) < 10 ∧ v = clamp01 ((10 - 5) / (10 - 0))))) ∧
    triangular (.fin 3) (.fin 1) (.fin 1) (.fin 1) = .ok 0 ∧
    trapezoidal (.fin 1) (.fin 0) (.fin 0) (.fin 2) (.fin 2) =
      .ok (if (0:ℚ) < 1 ∧ (1:ℚ) < 2 then 1 else 0) := by
  obtain ⟨h1, -, h3, h4⟩ := claim_c10_amended
  exact ⟨h1 5 0 0 10 (le_refl 0) (by norm_num), h3 3 1, h4 1 0 2 (by norm_num)⟩

end FuzzyVis
